import Mathlib

/-!
Verification of the devotion resolution engine of SilentSoulConnectMinistry.

This file gives a shallow embedding of the Python functions
`load_devotions_for_year` and `load_devotion_for` from `src/app.py`
(lines 408-523), of `normalize_date_str` from `src/app.py` (lines 306-317),
and of `build_message_from_entry` from `src/scripts/whatsapp_auto.py`
(lines 121-208), together with theorems settling the frozen claims about
the natural-language specification.

Modelling conventions:
- Parsed JSON values are the inductive `JSON`; Python dicts are association
  lists with first-match lookup (keys produced by `json.load` are unique).
- Python truthiness and the `a or b` operator are `JSON.truthy` and `pyOr`.
- `str(x)` on a Python value is `pyStr`; for lists/dicts it uses a `repr`
  model covering the common escape forms (backslash, quotes, newline,
  carriage return, tab); non-printable escaping beyond these is not needed
  by the repository's data paths.
- Reading and JSON-parsing the per-year file is modelled by a function
  `FS : Nat -> FileOutcome` from year to the outcome of
  `path.exists()` / `json.load` (absent file, caught parse exception, or
  the parsed value).  This is the only fallible operation in the resolver;
  the `Except`-instrumented variants make the exception flow explicit.
- JSON numbers are modelled as integers (the repository's date/devotion
  data uses no floats on the resolved paths).
-/

/-- A parsed JSON value as manipulated by the Python code. -/
inductive JSON where
  | null
  | bool (b : Bool)
  | num (n : Int)
  | str (s : String)
  | arr (xs : List JSON)
  | obj (kvs : List (String × JSON))

/-- Python truthiness (`bool(x)`) of a JSON value. -/
def JSON.truthy : JSON → Bool
  | .null => false
  | .bool b => b
  | .num n => n != 0
  | .str s => s != ""
  | .arr xs => !xs.isEmpty
  | .obj kvs => !kvs.isEmpty

/-- Whether the value is a dict (`isinstance(x, dict)`). -/
def JSON.isObj : JSON → Bool
  | .obj _ => true
  | _ => false

/-- Python `a or b`: the left operand when truthy, otherwise the right. -/
def pyOr (a b : JSON) : JSON := if a.truthy then a else b

/-- `d.get(k)` on a Python dict, with `None` (`JSON.null`) for a missing key. -/
def getJ (kvs : List (String × JSON)) (k : String) : JSON :=
  (List.lookup k kvs).getD .null

/-- `d.get(k, default)` on a Python dict. -/
def getD (kvs : List (String × JSON)) (k : String) (dflt : JSON) : JSON :=
  (List.lookup k kvs).getD dflt

/-- `d[k] = v` on a Python dict: replace in place if the key exists, else append. -/
def dictInsert : List (String × JSON) → String → JSON → List (String × JSON)
  | [], k, v => [(k, v)]
  | (k₀, v₀) :: rest, k, v =>
      if k₀ = k then (k, v) :: rest else (k₀, v₀) :: dictInsert rest k v

/-- Decimal digits of a natural number, most significant first; the fuel
argument (any bound above the digit count) keeps the recursion structural. -/
def natCharsAux : Nat → Nat → List Char
  | 0, _ => []
  | fuel + 1, n =>
      if n < 10 then [Char.ofNat (48 + n)]
      else natCharsAux fuel (n / 10) ++ [Char.ofNat (48 + n % 10)]

/-- Decimal digits of a natural number, most significant first. -/
def natChars (n : Nat) : List Char := natCharsAux (n + 1) n

/-- Python `str` of a non-negative integer. -/
def natStr (n : Nat) : String := ⟨natChars n⟩

/-- Python `str` of an integer. -/
def intStr (n : Int) : String :=
  if n < 0 then "-" ++ natStr n.natAbs else natStr n.natAbs

/-- The single-quote character (used to keep quote handling explicit). -/
def squote : Char := Char.ofNat 39

/-- The double-quote character. -/
def dquote : Char := Char.ofNat 34

/-- The backslash character. -/
def bslash : Char := Char.ofNat 92

/-- One character of Python `repr` of a string, given the chosen quote. -/
def reprEscape (q c : Char) : List Char :=
  if c = bslash then [bslash, bslash]
  else if c = Char.ofNat 10 then [bslash, Char.ofNat 110]
  else if c = Char.ofNat 13 then [bslash, Char.ofNat 114]
  else if c = Char.ofNat 9 then [bslash, Char.ofNat 116]
  else if c = q then [bslash, q]
  else [c]

/-- Python `repr` of a string: single quotes unless the string holds a
single quote and no double quote, with the usual escapes. -/
def pyQuoteStr (s : String) : String :=
  let q : Char :=
    if s.data.contains squote && !(s.data.contains dquote) then dquote else squote
  ⟨[q] ++ (s.data.map (reprEscape q)).flatten ++ [q]⟩

mutual

/-- Python `repr` of a JSON value. -/
def pyRepr : JSON → String
  | .null => "None"
  | .bool true => "True"
  | .bool false => "False"
  | .num n => intStr n
  | .str s => pyQuoteStr s
  | .arr xs => "[" ++ pyReprSeq xs ++ "]"
  | .obj kvs => "\x7b" ++ pyReprObj kvs ++ "\x7d"

/-- Comma-separated `repr` of list elements. -/
def pyReprSeq : List JSON → String
  | [] => ""
  | [x] => pyRepr x
  | x :: y :: ys => pyRepr x ++ ", " ++ pyReprSeq (y :: ys)

/-- Comma-separated `repr` of dict items. -/
def pyReprObj : List (String × JSON) → String
  | [] => ""
  | [(k, v)] => pyQuoteStr k ++ ": " ++ pyRepr v
  | (k, v) :: x :: xs => pyQuoteStr k ++ ": " ++ pyRepr v ++ ", " ++ pyReprObj (x :: xs)

end

/-- Python `str` of a JSON value (as used in f-strings and `str(...)`). -/
def pyStr : JSON → String
  | .str s => s
  | j => pyRepr j

/-- A Python `datetime.date` value. -/
structure PyDate where
  year : Nat
  month : Nat
  day : Nat

/-- Zero-padded two-digit decimal rendering (`%02d`). -/
def pad2 (n : Nat) : String := if n < 10 then "0" ++ natStr n else natStr n

/-- Zero-padded four-digit decimal rendering (`%04d`). -/
def pad4 (n : Nat) : String :=
  if n < 10 then "000" ++ natStr n
  else if n < 100 then "00" ++ natStr n
  else if n < 1000 then "0" ++ natStr n
  else natStr n

/-- `date.isoformat()`: `YYYY-MM-DD`. -/
def PyDate.isoformat (d : PyDate) : String :=
  pad4 d.year ++ "-" ++ pad2 d.month ++ "-" ++ pad2 d.day

/-- The whitespace characters stripped by Python `str.strip()` (ASCII part). -/
def isPySpace (c : Char) : Bool :=
  c = ' ' || c = Char.ofNat 9 || c = Char.ofNat 10 ||
  c = Char.ofNat 13 || c = Char.ofNat 11 || c = Char.ofNat 12

/-- Python `str.strip()` on the character list: drop whitespace on the left. -/
def ltrimChars (l : List Char) : List Char := l.dropWhile isPySpace

/-- Python `str.strip()` on the character list: drop whitespace on the right. -/
def rtrimChars (l : List Char) : List Char := (l.reverse.dropWhile isPySpace).reverse

/-- Python `s.strip()`. -/
def pyStrip (s : String) : String := ⟨rtrimChars (ltrimChars s.data)⟩

/-- Leap-year rule used by `datetime` validation. -/
def isLeap (y : Nat) : Bool := y % 4 = 0 && (y % 100 ≠ 0 || y % 400 = 0)

/-- Number of days of a month, for `datetime` day validation. -/
def daysInMonth (y m : Nat) : Nat :=
  [31, if isLeap y then 29 else 28, 31, 30, 31, 30, 31, 31, 30, 31, 30, 31].getD (m - 1) 0

/-- One token of a `strptime` format string as used by `normalize_date_str`:
the directives `%Y`, `%m`, `%d`, `%b`, `%B` and the literal separators. -/
inductive DTok where
  | Y | M2 | D2 | Mabbr | Mfull
  | dash | slash | comma | sp

/-- Lowercase month abbreviations recognised by `%b` (C locale). -/
def monthAbbrs : List String :=
  ["jan", "feb", "mar", "apr", "may", "jun", "jul", "aug", "sep", "oct", "nov", "dec"]

/-- Lowercase full month names recognised by `%B` (C locale). -/
def monthFulls : List String :=
  ["january", "february", "march", "april", "may", "june", "july",
   "august", "september", "october", "november", "december"]

/-- Digit value of an ASCII digit character. -/
def digitVal (c : Char) : Nat := c.toNat - 48

/-- Parse `%Y`: exactly four digits (CPython `strptime` uses `\d\d\d\d`). -/
def parseY4 : List Char → Option (Nat × List Char)
  | a :: b :: c :: d :: rest =>
      if a.isDigit && b.isDigit && c.isDigit && d.isDigit then
        some (1000 * digitVal a + 100 * digitVal b + 10 * digitVal c + digitVal d, rest)
      else none
  | _ => none

/-- Parse `%m`/`%d`: one or two digits with the value range enforced by
CPython's `strptime` regular expression (two digits when the two-digit
value is in range, otherwise a single non-zero digit). -/
def parse2 (maxV : Nat) : List Char → Option (Nat × List Char)
  | c₁ :: rest₁ =>
      if c₁.isDigit then
        match rest₁ with
        | c₂ :: rest₂ =>
            if c₂.isDigit then
              let v := 10 * digitVal c₁ + digitVal c₂
              if 1 ≤ v && v ≤ maxV then some (v, rest₂)
              else if 1 ≤ digitVal c₁ && digitVal c₁ ≤ 9 then some (digitVal c₁, rest₁)
              else none
            else
              if 1 ≤ digitVal c₁ then some (digitVal c₁, rest₁) else none
        | [] => if 1 ≤ digitVal c₁ then some (digitVal c₁, []) else none
      else none
  | [] => none

/-- Case-insensitive match of one month name from a list, returning the
1-based month number and the remaining input. -/
def parseMonthName (names : List String) : List Char → Option (Nat × List Char) :=
  fun cs =>
    let rec go : List String → Nat → Option (Nat × List Char)
      | [], _ => none
      | nm :: rest, i =>
          let k := nm.data.length
          if (cs.take k).map Char.toLower = nm.data then some (i, cs.drop k)
          else go rest (i + 1)
    go names 1

/-- Run one format token, threading the partly-parsed `(year, month, day)`. -/
def runTok (t : DTok) (cs : List Char) (acc : Nat × Nat × Nat) :
    Option (List Char × (Nat × Nat × Nat)) :=
  match t, acc with
  | .Y, (_, m, d) => (parseY4 cs).map (fun p => (p.2, (p.1, m, d)))
  | .M2, (y, _, d) => ((parse2 12) cs).map (fun p => (p.2, (y, p.1, d)))
  | .D2, (y, m, _) => ((parse2 31) cs).map (fun p => (p.2, (y, m, p.1)))
  | .Mabbr, (y, _, d) => (parseMonthName monthAbbrs cs).map (fun p => (p.2, (y, p.1, d)))
  | .Mfull, (y, _, d) => (parseMonthName monthFulls cs).map (fun p => (p.2, (y, p.1, d)))
  | .dash, _ => match cs with
      | c :: rest => if c = '-' then some (rest, acc) else none
      | [] => none
  | .slash, _ => match cs with
      | c :: rest => if c = '/' then some (rest, acc) else none
      | [] => none
  | .comma, _ => match cs with
      | c :: rest => if c = ',' then some (rest, acc) else none
      | [] => none
  | .sp, _ => match cs.span isPySpace with
      | (taken, rest) => if taken.isEmpty then none else some (rest, acc)

/-- Run a whole format; the entire input must be consumed
(`strptime` raises on unconverted trailing data). -/
def runFmt : List DTok → List Char → (Nat × Nat × Nat) → Option (Nat × Nat × Nat)
  | [], cs, acc => if cs.isEmpty then some acc else none
  | t :: ts, cs, acc =>
      match runTok t cs acc with
      | none => none
      | some (rest, acc₂) => runFmt ts rest acc₂

/-- The ten formats tried by `normalize_date_str`, in source order:
`%Y-%m-%d`, `%d-%m-%Y`, `%m-%d-%Y`, `%Y/%m/%d`, `%m/%d/%Y`, `%d/%m/%Y`,
`%b %d, %Y`, `%B %d, %Y`, `%d %b %Y`, `%d %B %Y`. -/
def dateFmts : List (List DTok) :=
  [[.Y, .dash, .M2, .dash, .D2],
   [.D2, .dash, .M2, .dash, .Y],
   [.M2, .dash, .D2, .dash, .Y],
   [.Y, .slash, .M2, .slash, .D2],
   [.M2, .slash, .D2, .slash, .Y],
   [.D2, .slash, .M2, .slash, .Y],
   [.Mabbr, .sp, .D2, .comma, .sp, .Y],
   [.Mfull, .sp, .D2, .comma, .sp, .Y],
   [.D2, .sp, .Mabbr, .sp, .Y],
   [.D2, .sp, .Mfull, .sp, .Y]]

/-- `datetime` constructor validation applied by `strptime` after matching. -/
def validYMD : Nat × Nat × Nat → Bool
  | (y, m, d) => 1 ≤ y && 1 ≤ m && m ≤ 12 && 1 ≤ d && d ≤ daysInMonth y m

/-- `src/app.py` `normalize_date_str` (lines 306-317): strip the input, try
the ten formats in order, and reformat the first parse as `%Y-%m-%d`. -/
def normalize_date_str (s : String) : Option String :=
  let cs := (pyStrip s).data
  let rec tryAll : List (List DTok) → Option String
    | [] => none
    | f :: fs =>
        match runFmt f cs (1900, 1, 1) with
        | some ymd =>
            if validYMD ymd then
              some (natStr ymd.1 ++ "-" ++ pad2 ymd.2.1 ++ "-" ++ pad2 ymd.2.2)
            else tryAll fs
        | none => tryAll fs
  tryAll dateFmts

/-- Outcome of locating and JSON-parsing the per-year devotions file
(`data/devotions/devotions_<year>.json`): the file may be absent, `json.load`
may raise (outcome carries the message), or parsing yields a value. -/
inductive FileOutcome where
  | absent
  | unreadable (msg : String)
  | parsed (j : JSON)

/-- The filesystem as seen by the loader: for each year, the outcome of
opening and parsing that year's devotions file. -/
def FS : Type := Nat → FileOutcome

/-- `json.load` on an existing file, as a fallible operation. -/
def json_loadE : FileOutcome → Except String JSON
  | .absent => .error "FileNotFoundError"
  | .unreadable e => .error e
  | .parsed j => .ok j

/-- One iteration of the list-normalisation loop of `load_devotions_for_year`:
skip non-dict entries, skip entries with a falsy `date` field, otherwise key
the entry by its normalised date, falling back to the raw date string. -/
def storeEntryStep (acc : List (String × JSON)) (entry : JSON) : List (String × JSON) :=
  match entry with
  | .obj kvs =>
      let raw := getD kvs "date" (.str "")
      if raw.truthy then
        let rawS := pyStr raw
        let norm := (normalize_date_str rawS).getD rawS
        dictInsert acc norm entry
      else acc
  | _ => acc

/-- The shape dispatch of `load_devotions_for_year` on the parsed value:
a dict is returned as-is, a list is folded into a keyed dict, anything
else gives the empty dict. -/
def storeOfData : JSON → List (String × JSON)
  | .obj kvs => kvs
  | .arr xs => xs.foldl storeEntryStep []
  | _ => []

/-- `src/app.py` `load_devotions_for_year` (lines 408-452): empty dict when
the file is absent or `json.load` raises (the `try`/`except` catches it),
otherwise the shape dispatch on the parsed value. -/
def load_devotions_for_year (fs : FS) (year : Nat) : List (String × JSON) :=
  match fs year with
  | .absent => []
  | fo =>
      match json_loadE fo with
      | .error _ => []
      | .ok data => storeOfData data

/-- The canonical record returned by `load_devotion_for`, with the fields in
the construction order of the returned dict.  Field values are Python values
(`JSON`), as the source copies them out of the data unconverted. -/
structure Record where
  title : JSON
  theme : JSON
  verse_ref : JSON
  body : JSON
  verse_text : JSON
  heart_picture : JSON
  silent_soul_meaning : JSON
  prayer : JSON
  tags : JSON

/-- `has_slots` of `load_devotion_for`: the day-block has a dict-typed
value at key `morning` or at key `night`. -/
def has_slots_of (kvs : List (String × JSON)) : Bool :=
  (getJ kvs "morning").isObj || (getJ kvs "night").isObj

/-- The slot block chosen by `load_devotion_for`: `day_block.get(slot) or {}`
in the slotted dialect, the day-block itself in the flat dialect. -/
def slot_block_of (kvs : List (String × JSON)) (slot : String) : JSON :=
  if has_slots_of kvs then pyOr (getJ kvs slot) (.obj []) else .obj kvs

/-- The theme chosen by `load_devotion_for`: `day_block.get("theme", "")` in
the slotted dialect, `day_block.get("theme") or day_block.get("Theme") or ""`
in the flat dialect. -/
def theme_of (kvs : List (String × JSON)) : JSON :=
  if has_slots_of kvs then getD kvs "theme" (.str "")
  else pyOr (getJ kvs "theme") (pyOr (getJ kvs "Theme") (.str ""))

/-- The record literal built at the end of `load_devotion_for` from the
chosen theme and slot block. -/
def mkRecord (theme : JSON) (sb : List (String × JSON)) : Record :=
  { title := pyOr (getJ sb "title") (pyOr (getJ sb "Theme") (pyOr (getJ sb "theme") (.str "")))
    theme := theme
    verse_ref := pyOr (getJ sb "verse_ref") (pyOr (getJ sb "scripture") (.str ""))
    body := pyOr (getJ sb "silent_soul_meaning")
      (pyOr (getJ sb "closing") (pyOr (getJ sb "verse_text") (pyOr (getJ sb "body") (.str ""))))
    verse_text := getD sb "verse_text" (.str "")
    heart_picture := getD sb "heart_picture" (.str "")
    silent_soul_meaning := getD sb "silent_soul_meaning" (.str "")
    prayer := pyOr (getJ sb "prayer") (pyOr (getJ sb "morning_prayer") (pyOr (getJ sb "night_prayer") (.str "")))
    tags := pyOr (getJ sb "tags") (.arr []) }

/-- The body of `load_devotion_for` after the year store is loaded: look up
the ISO date key, require a dict day-block, pick theme and slot block by
dialect, require a dict slot block, and build the record; `None` otherwise. -/
def resolveFrom (all_for_year : List (String × JSON)) (target_date : PyDate)
    (slot : String) : Option Record :=
  let day_key := target_date.isoformat
  match List.lookup day_key all_for_year with
  | some (.obj kvs) =>
      match slot_block_of kvs slot with
      | .obj sb => some (mkRecord (theme_of kvs) sb)
      | _ => none
  | _ => none

/-- `src/app.py` `load_devotion_for` (lines 455-523). -/
def load_devotion_for (fs : FS) (target_date : PyDate) (slot : String) : Option Record :=
  resolveFrom (load_devotions_for_year fs target_date.year) target_date slot

/-- `load_devotions_for_year` with the exception flow explicit: the only
fallible operation, `json.load`, sits inside `try`/`except Exception`,
so every raised exception is caught and the function returns normally. -/
def load_devotions_for_yearE (fs : FS) (year : Nat) :
    Except String (List (String × JSON)) :=
  match fs year with
  | .absent => .ok []
  | fo =>
      .ok (match json_loadE fo with
        | .error _ => []
        | .ok data => storeOfData data)

/-- `load_devotion_for` with the exception flow explicit: any exception of
the loader would propagate through the bind; the remaining operations
(`dict.get`, `isinstance`, `or`, dict literals) cannot raise. -/
def load_devotion_forE (fs : FS) (target_date : PyDate) (slot : String) :
    Except String (Option Record) :=
  (load_devotions_for_yearE fs target_date.year).bind
    (fun all => .ok (resolveFrom all target_date slot))

/-- Python `%A` weekday names, indexed with 0 = Sunday. -/
def weekdayName : Nat → String
  | 0 => "Sunday"
  | 1 => "Monday"
  | 2 => "Tuesday"
  | 3 => "Wednesday"
  | 4 => "Thursday"
  | 5 => "Friday"
  | 6 => "Saturday"
  | _ => ""

/-- Python `%B` month names (1-based). -/
def monthName : Nat → String
  | 1 => "January"
  | 2 => "February"
  | 3 => "March"
  | 4 => "April"
  | 5 => "May"
  | 6 => "June"
  | 7 => "July"
  | 8 => "August"
  | 9 => "September"
  | 10 => "October"
  | 11 => "November"
  | 12 => "December"
  | _ => ""

/-- Day of week of a Gregorian date (Sakamoto's method), 0 = Sunday;
models the weekday underlying `datetime.strftime("%A")`. -/
def dayOfWeek (y m d : Nat) : Nat :=
  let y₂ := if m < 3 then y - 1 else y
  (y₂ + y₂ / 4 - y₂ / 100 + y₂ / 400 +
    [0, 3, 2, 5, 0, 3, 5, 1, 4, 6, 2, 4].getD (m - 1) 0 + d) % 7

/-- `dt.strftime("%A, %B %d, %Y")` as used for the message date line. -/
def formatLong (dt : PyDate) : String :=
  weekdayName (dayOfWeek dt.year dt.month dt.day) ++ ", " ++
    monthName dt.month ++ " " ++ pad2 dt.day ++ ", " ++ natStr dt.year

/-- The default of the `SITE_URL` environment setting in
`src/scripts/whatsapp_auto.py`. -/
def siteUrlDefault : String := "https://soulstart.onrender.com/"

/-- The `add` helper of `build_message_from_entry`: append the line only
when the string is truthy (non-empty). -/
def addIf (s : String) : List String := if s = "" then [] else [s]

/-- `"\n".join(lines)`. -/
def joinNL : List String → String
  | [] => ""
  | [x] => x
  | x :: y :: ys => x ++ "\n" ++ joinNL (y :: ys)

/-- `title = entry.get("title") or entry.get("Theme") or entry.get("theme")`. -/
def bmfeTitle (e : List (String × JSON)) : JSON :=
  pyOr (getJ e "title") (pyOr (getJ e "Theme") (getJ e "theme"))

/-- `verse_ref` chain of `build_message_from_entry`. -/
def bmfeVerseRef (e : List (String × JSON)) : JSON :=
  pyOr (getJ e "verse_ref") (pyOr (getJ e "verseRef") (getJ e "VerseRef"))

/-- `verse_text` chain of `build_message_from_entry`. -/
def bmfeVerseText (e : List (String × JSON)) : JSON :=
  pyOr (getJ e "verse_text") (pyOr (getJ e "verseText") (getJ e "VerseText"))

/-- `pts = [p for p in (point1, point2, point3) if p]`. -/
def bmfePts (e : List (String × JSON)) : List JSON :=
  [getJ e "point1", getJ e "point2", getJ e "point3"].filter JSON.truthy

/-- `scripture` chain of `build_message_from_entry`. -/
def bmfeScripture (e : List (String × JSON)) : JSON :=
  pyOr (getJ e "scripture") (pyOr (getJ e "Scripture") (getJ e "verse"))

/-- `reflection` chain of `build_message_from_entry`. -/
def bmfeReflection (e : List (String × JSON)) : JSON :=
  pyOr (getJ e "reflection") (pyOr (getJ e "note") (getJ e "thought"))

/-- `morning_pr` chain of `build_message_from_entry`. -/
def bmfeMorningPr (e : List (String × JSON)) : JSON :=
  pyOr (getJ e "morning_prayer") (getJ e "morningPrayer")

/-- `night_pr` chain of `build_message_from_entry`. -/
def bmfeNightPr (e : List (String × JSON)) : JSON :=
  pyOr (getJ e "night_prayer") (getJ e "nightPrayer")

/-- `sunrise` chain of `build_message_from_entry`. -/
def bmfeSunrise (e : List (String × JSON)) : JSON :=
  pyOr (getJ e "sunrise") (pyOr (getJ e "Sunrise") (getJ e "sun_rise"))

/-- `sunset` chain of `build_message_from_entry`. -/
def bmfeSunset (e : List (String × JSON)) : JSON :=
  pyOr (getJ e "sunset") (pyOr (getJ e "Sunset") (getJ e "sun_set"))

/-- `is_new = any([title, verse_ref, verse_text, pts, closing, prayer])`. -/
def bmfeIsNew (e : List (String × JSON)) : Bool :=
  (bmfeTitle e).truthy || (bmfeVerseRef e).truthy || (bmfeVerseText e).truthy ||
    !(bmfePts e).isEmpty || (getJ e "closing").truthy || (getJ e "prayer").truthy

/-- `is_legacy = any([scripture, reflection, declaration, blessing,
morning_pr, night_pr])`. -/
def bmfeIsLegacy (e : List (String × JSON)) : Bool :=
  (bmfeScripture e).truthy || (bmfeReflection e).truthy ||
    (getJ e "declaration").truthy || (getJ e "blessing").truthy ||
    (bmfeMorningPr e).truthy || (bmfeNightPr e).truthy

/-- The sunrise/sunset lines added right after the header. -/
def bmfePre (e : List (String × JSON)) : List String :=
  (if (bmfeSunrise e).truthy then addIf ("🕕 Sunrise: " ++ pyStr (bmfeSunrise e)) else [])
    ++ (if (bmfeSunset e).truthy then addIf ("🌇 Sunset: " ++ pyStr (bmfeSunset e)) else [])

/-- The combined scripture value `vv` of the new-dialect branch. -/
def bmfeVV (e : List (String × JSON)) : JSON :=
  let vv₀ := pyOr (bmfeVerseRef e) (.str "")
  if (bmfeVerseText e).truthy then
    if vv₀.truthy then .str (pyStr vv₀ ++ " — " ++ pyStr (bmfeVerseText e)) else bmfeVerseText e
  else vv₀

/-- Content lines of the `is_new` branch before the prayer line. -/
def bmfeNewStuff (e : List (String × JSON)) : List String :=
  (if (bmfeTitle e).truthy then addIf ("\n*" ++ pyStr (bmfeTitle e) ++ "*") else [])
    ++ (if (bmfeVerseRef e).truthy || (bmfeVerseText e).truthy then
          addIf ("\n📖 " ++ pyStr (bmfeVV e)) else [])
    ++ (if (bmfePts e).isEmpty then [] else
          [""] ++ (bmfePts e).enum.map (fun p => natStr (p.1 + 1) ++ ". " ++ pyStr p.2))
    ++ (if (getJ e "closing").truthy then addIf ("\n✍️ " ++ pyStr (getJ e "closing")) else [])

/-- Content lines of the `is_legacy` branch before the prayer line. -/
def bmfeLegacyStuff (e : List (String × JSON)) : List String :=
  let tot := pyOr (bmfeTitle e) (getJ e "theme")
  (if tot.truthy then addIf ("\n*" ++ pyStr tot ++ "*") else [])
    ++ (if (bmfeScripture e).truthy then addIf ("\n📖 " ++ pyStr (bmfeScripture e)) else [])
    ++ (if (bmfeReflection e).truthy then addIf ("\n✍️ " ++ pyStr (bmfeReflection e)) else [])
    ++ (if (getJ e "declaration").truthy then addIf ("\n💬 " ++ pyStr (getJ e "declaration")) else [])
    ++ (if (getJ e "blessing").truthy then addIf ("\n🕊️ " ++ pyStr (getJ e "blessing")) else [])

/-- Content lines of the fallback branch before the prayer line. -/
def bmfeElseStuff (e : List (String × JSON)) : List String :=
  (if (getJ e "verse").truthy then addIf ("\n📖 " ++ pyStr (getJ e "verse")) else [])
    ++ (if (getJ e "note").truthy then addIf ("\n✍️ " ++ pyStr (getJ e "note")) else [])

/-- The slot-dependent default prayer sentence. -/
def defaultPrayer (mode : String) : String :=
  if mode = "morning" then "Lord, order my steps today. Amen."
  else "Lord, quiet my mind and keep me in Your care. Amen."

/-- Content lines between the header block and the prayer line, by branch. -/
def bmfeStuff (e : List (String × JSON)) : List String :=
  if bmfeIsNew e then bmfeNewStuff e
  else if bmfeIsLegacy e then bmfeLegacyStuff e
  else bmfeElseStuff e

/-- The prayer text interpolated after the `🙏` marker, by branch. -/
def bmfePrayerStr (mode : String) (e : List (String × JSON)) : String :=
  if bmfeIsNew e then pyStr (pyOr (getJ e "prayer") (.str (defaultPrayer mode)))
  else if bmfeIsLegacy e then
    pyStr (pyOr (if mode = "morning" then bmfeMorningPr e else bmfeNightPr e)
      (.str (defaultPrayer mode)))
  else defaultPrayer mode

/-- The promotional footer lines, present when the site URL is truthy. -/
def promoBit (site : String) : List String :=
  if site = "" then [] else addIf ("\n🔗 Visit our website\n" ++ site)

/-- The header line `"<emoji> <label> Devotion — <long date>"`. -/
def headerLine (mode : String) (dt : PyDate) : String :=
  (if mode = "morning" then "🌅 Sunrise Devotion" else "🌙 Sunset Devotion")
    ++ " — " ++ formatLong dt

/-- The full `lines` list accumulated by `build_message_from_entry`: in every
branch the content lines are followed by the mandatory prayer line and then
the promotional footer. -/
def bmfeLines (site mode : String) (e : List (String × JSON)) (dt : PyDate) :
    List String :=
  headerLine mode dt ::
    (bmfePre e ++ bmfeStuff e ++ addIf ("\n🙏 " ++ bmfePrayerStr mode e) ++ promoBit site)

/-- `src/scripts/whatsapp_auto.py` `build_message_from_entry` (lines
121-208), parameterised by the `SITE_URL` setting: join the accumulated
lines with newlines and strip the result.  The over-length check only
prints a warning and returns the message unmodified, so it is omitted. -/
def build_message_from_entry (site mode : String) (e : List (String × JSON))
    (dt : PyDate) : String :=
  pyStrip (joinNL (bmfeLines site mode e dt))

/-- The first line of a string (up to the first newline). -/
def firstLine (s : String) : String :=
  ⟨s.data.takeWhile (fun c => c != Char.ofNat 10)⟩

/-- A filesystem with no devotions file for any year. -/
def fsAbsent : FS := fun _ => .absent

/-- The day-block of the specification's happy-path scenario. -/
def kvsC6 : List (String × JSON) :=
  [("theme", .str "New Beginnings"),
   ("morning", .obj [("verse_ref", .str "Genesis 1:1"),
     ("verse_text", .str "In the beginning..."),
     ("closing", .str "Start fresh."),
     ("prayer", .str "Lord, guide me.")])]

/-- A filesystem holding the happy-path store for 2026. -/
def fsC6 : FS := fun y =>
  if y = 2026 then .parsed (.obj [("2026-01-01", .obj kvsC6)]) else .absent

/-- Whether an optional looked-up value is a dict. -/
def isDictOpt : Option JSON → Bool
  | some (.obj _) => true
  | _ => false

/-- Claim C1 (corrected): when the year store holds no dict day-block at the
date key (store empty, key missing, or value not a mapping), `resolve`
returns `None` — there is no "Coming Soon" placeholder record in the code. -/
theorem resolve_returns_none_without_day_block (fs : FS) (d : PyDate) (slot : String)
    (h : isDictOpt (List.lookup d.isoformat (load_devotions_for_year fs d.year)) = false) :
    load_devotion_for fs d slot = none := by
  rcases hl : List.lookup d.isoformat (load_devotions_for_year fs d.year) with _ | j
  · simp only [load_devotion_for, resolveFrom, hl]
  · rw [hl] at h
    cases j with
    | obj kvs => simp [isDictOpt] at h
    | null => simp only [load_devotion_for, resolveFrom, hl]
    | bool b => simp only [load_devotion_for, resolveFrom, hl]
    | num n => simp only [load_devotion_for, resolveFrom, hl]
    | str s => simp only [load_devotion_for, resolveFrom, hl]
    | arr xs => simp only [load_devotion_for, resolveFrom, hl]

/-- Witness for `resolve_returns_none_without_day_block` at an absent store. -/
theorem resolve_returns_none_without_day_block_witness :
    isDictOpt (List.lookup (PyDate.mk 2026 6 15).isoformat
      (load_devotions_for_year fsAbsent (PyDate.mk 2026 6 15).year)) = false ∧
    load_devotion_for fsAbsent (PyDate.mk 2026 6 15) "morning" = none :=
  ⟨rfl, resolve_returns_none_without_day_block fsAbsent (PyDate.mk 2026 6 15) "morning" rfl⟩

/-- Claim C1 counterexample: with an empty year store (file absent), the
claimed placeholder record is not returned — `resolve` returns `None`. -/
theorem resolve_empty_store_returns_none :
    load_devotion_for fsAbsent (PyDate.mk 2026 6 15) "morning" = none := rfl

/-- Claim C3 (confirmed): the exception-instrumented resolver always returns
normally (`Except.ok`), agreeing with the pure resolver, for every
filesystem content (absent file, caught parse failure, any top-level JSON
shape), date and slot: the one fallible operation, `json.load`, is wrapped
in `try`/`except Exception` and every other operation is non-raising. -/
theorem resolve_total_no_exception (fs : FS) (d : PyDate) (slot : String) :
    load_devotion_forE fs d slot = .ok (load_devotion_for fs d slot) := by
  unfold load_devotion_forE load_devotions_for_yearE load_devotion_for load_devotions_for_year
  cases h : fs d.year <;> rfl

/-- Claim C6 (confirmed): the happy-path scenario resolves to the record with
theme "New Beginnings", verse_ref "Genesis 1:1", body "Start fresh." (the
`closing` text), prayer "Lord, guide me.", and empty tags. -/
theorem resolve_happy_path :
    ∃ r, load_devotion_for fsC6 (PyDate.mk 2026 1 1) "morning" = some r ∧
      r.theme = .str "New Beginnings" ∧ r.verse_ref = .str "Genesis 1:1" ∧
      r.body = .str "Start fresh." ∧ r.prayer = .str "Lord, guide me." ∧
      r.tags = .arr [] :=
  ⟨⟨.str "", .str "New Beginnings", .str "Genesis 1:1", .str "Start fresh.",
    .str "In the beginning...", .str "", .str "", .str "Lord, guide me.", .arr []⟩,
   rfl, rfl, rfl, rfl, rfl, rfl⟩

/-- Claim C8 (confirmed): on a flat (Dialect-B) day-block — no dict-typed
value at `morning` or `night` — resolving the `morning` and the `night`
slot yields identical records: the slot parameter is only consulted in the
slotted dialect. -/
theorem resolve_flat_block_slot_independent (fs : FS) (d : PyDate)
    (kvs : List (String × JSON))
    (hd : List.lookup d.isoformat (load_devotions_for_year fs d.year) = some (.obj kvs))
    (hs : has_slots_of kvs = false) :
    load_devotion_for fs d "morning" = load_devotion_for fs d "night" := by
  simp only [load_devotion_for, resolveFrom, hd]
  simp [slot_block_of, hs]

/-- A flat legacy-style day-block and a filesystem exposing it. -/
def kvsFlat : List (String × JSON) :=
  [("theme", .str "Evening Light"), ("scripture", .str "Ps 23"),
   ("closing", .str "Rest well.")]

/-- Filesystem with one flat day-block for 2026-01-03. -/
def fsFlat : FS := fun y =>
  if y = 2026 then .parsed (.obj [("2026-01-03", .obj kvsFlat)]) else .absent

/-- Witness for `resolve_flat_block_slot_independent` on a concrete flat block. -/
theorem resolve_flat_block_slot_independent_witness :
    List.lookup (PyDate.mk 2026 1 3).isoformat
        (load_devotions_for_year fsFlat (PyDate.mk 2026 1 3).year) = some (.obj kvsFlat) ∧
    has_slots_of kvsFlat = false ∧
    load_devotion_for fsFlat (PyDate.mk 2026 1 3) "morning" =
      load_devotion_for fsFlat (PyDate.mk 2026 1 3) "night" :=
  ⟨rfl, rfl,
   resolve_flat_block_slot_independent fsFlat (PyDate.mk 2026 1 3) kvsFlat rfl rfl⟩

/-- All keys consulted by `load_devotion_for` when it builds a record. -/
def contentKeys : List String :=
  ["morning", "night", "theme", "Theme", "title", "verse_ref", "scripture",
   "verse_text", "body", "closing", "silent_soul_meaning", "heart_picture",
   "prayer", "morning_prayer", "night_prayer", "tags"]

/-- Claim C2 (corrected): there is no field-level fallback content pack — a
day-block carrying none of the consulted keys resolves to a record whose
string fields are all the empty string (and whose tags are the empty list);
the record also carries `silent_soul_meaning`/`heart_picture` rather than a
`verse_meaning` field. -/
theorem resolve_fields_default_to_empty (fs : FS) (d : PyDate) (slot : String)
    (kvs : List (String × JSON))
    (hd : List.lookup d.isoformat (load_devotions_for_year fs d.year) = some (.obj kvs))
    (hk : contentKeys.all (fun k => (List.lookup k kvs).isNone) = true) :
    load_devotion_for fs d slot =
      some ⟨.str "", .str "", .str "", .str "", .str "", .str "", .str "", .str "",
        .arr []⟩ := by
  have hall := List.all_eq_true.mp hk
  have g : ∀ k ∈ contentKeys, getJ kvs k = JSON.null := by
    intro k hkm
    unfold getJ
    rw [Option.isNone_iff_eq_none.mp (hall k hkm)]
    rfl
  have gd : ∀ k ∈ contentKeys, ∀ dflt, getD kvs k dflt = dflt := by
    intro k hkm dflt
    unfold getD
    rw [Option.isNone_iff_eq_none.mp (hall k hkm)]
    rfl
  have hns : has_slots_of kvs = false := by
    unfold has_slots_of
    rw [g "morning" (by simp [contentKeys]), g "night" (by simp [contentKeys])]
    rfl
  have hsb : slot_block_of kvs slot = .obj kvs := by
    unfold slot_block_of
    rw [hns]
    rfl
  simp only [load_devotion_for, resolveFrom, hd, hsb]
  simp only [mkRecord, theme_of, hns, Bool.false_eq_true, if_false,
    g "title" (by simp [contentKeys]), g "Theme" (by simp [contentKeys]),
    g "theme" (by simp [contentKeys]), g "verse_ref" (by simp [contentKeys]),
    g "scripture" (by simp [contentKeys]),
    g "silent_soul_meaning" (by simp [contentKeys]),
    g "closing" (by simp [contentKeys]), g "verse_text" (by simp [contentKeys]),
    g "body" (by simp [contentKeys]), g "prayer" (by simp [contentKeys]),
    g "morning_prayer" (by simp [contentKeys]),
    g "night_prayer" (by simp [contentKeys]), g "tags" (by simp [contentKeys]),
    gd "verse_text" (by simp [contentKeys]),
    gd "heart_picture" (by simp [contentKeys]),
    gd "silent_soul_meaning" (by simp [contentKeys])]
  simp [pyOr, JSON.truthy]

/-- A day-block holding only an irrelevant key, and its filesystem. -/
def kvsFooBar : List (String × JSON) := [("foo", .str "bar")]

/-- Filesystem with the irrelevant-key day-block on 2026-01-01. -/
def fsFooBar : FS := fun y =>
  if y = 2026 then .parsed (.obj [("2026-01-01", .obj kvsFooBar)]) else .absent

/-- Witness for `resolve_fields_default_to_empty`. -/
theorem resolve_fields_default_to_empty_witness :
    List.lookup (PyDate.mk 2026 1 1).isoformat
        (load_devotions_for_year fsFooBar (PyDate.mk 2026 1 1).year) =
      some (.obj kvsFooBar) ∧
    contentKeys.all (fun k => (List.lookup k kvsFooBar).isNone) = true ∧
    load_devotion_for fsFooBar (PyDate.mk 2026 1 1) "morning" =
      some ⟨.str "", .str "", .str "", .str "", .str "", .str "", .str "", .str "",
        .arr []⟩ :=
  ⟨rfl, rfl,
   resolve_fields_default_to_empty fsFooBar (PyDate.mk 2026 1 1) "morning" kvsFooBar rfl rfl⟩

/-- A flat day-block with only a theme, and its filesystem. -/
def kvsThemeX : List (String × JSON) := [("theme", .str "x")]

/-- Filesystem with the theme-only day-block on 2026-01-01. -/
def fsThemeX : FS := fun y =>
  if y = 2026 then .parsed (.obj [("2026-01-01", .obj kvsThemeX)]) else .absent

/-- Claim C2 counterexample: a returned (non-placeholder) record whose
`verse_ref` field is the empty string — required fields are not substituted
from any fallback pack. -/
theorem resolve_returns_empty_verse_ref :
    (load_devotion_for fsThemeX (PyDate.mk 2026 1 1) "morning").map Record.verse_ref =
      some (.str "") := rfl

/-- Claim C4 (corrected): when the day-block is slotted but the requested
slot sub-object is absent, falsy or an empty mapping, `resolve` returns a
record whose content fields are all empty strings (theme still taken from
the day level) — not a placeholder record. -/
theorem resolve_missing_slot_empty_fields (fs : FS) (d : PyDate) (slot : String)
    (kvs : List (String × JSON))
    (hd : List.lookup d.isoformat (load_devotions_for_year fs d.year) = some (.obj kvs))
    (hs : has_slots_of kvs = true)
    (hb : (getJ kvs slot).truthy = false) :
    load_devotion_for fs d slot =
      some ⟨.str "", getD kvs "theme" (.str ""), .str "", .str "", .str "", .str "",
        .str "", .str "", .arr []⟩ := by
  have hsb : slot_block_of kvs slot = .obj [] := by
    unfold slot_block_of
    rw [hs]
    simp [pyOr, hb]
  simp only [load_devotion_for, resolveFrom, hd, hsb]
  simp [mkRecord, theme_of, hs, getJ, getD, pyOr, JSON.truthy]

/-- Witness for `resolve_missing_slot_empty_fields` on the happy-path store
with the `night` slot. -/
theorem resolve_missing_slot_empty_fields_witness :
    List.lookup (PyDate.mk 2026 1 1).isoformat
        (load_devotions_for_year fsC6 (PyDate.mk 2026 1 1).year) = some (.obj kvsC6) ∧
    has_slots_of kvsC6 = true ∧
    (getJ kvsC6 "night").truthy = false ∧
    load_devotion_for fsC6 (PyDate.mk 2026 1 1) "night" =
      some ⟨.str "", getD kvsC6 "theme" (.str ""), .str "", .str "", .str "", .str "",
        .str "", .str "", .arr []⟩ :=
  ⟨rfl, rfl, rfl,
   resolve_missing_slot_empty_fields fsC6 (PyDate.mk 2026 1 1) "night" kvsC6 rfl rfl rfl⟩

/-- Claim C4 counterexample: resolving the missing `night` slot of the
happy-path store yields a record with every content field empty — exactly
the silently-empty record the claim says is not returned. -/
theorem resolve_missing_slot_counterexample :
    load_devotion_for fsC6 (PyDate.mk 2026 1 1) "night" =
      some ⟨.str "", .str "New Beginnings", .str "", .str "", .str "", .str "",
        .str "", .str "", .arr []⟩ := rfl

/-- Claim C5 (corrected): the body field is the first truthy value of the
chain `silent_soul_meaning` / `closing` / `verse_text` / `body` over the
slot block (else the empty string); it is not assembled from `body`,
`point1`..`point3` and `closing`. -/
theorem resolve_body_first_truthy (fs : FS) (d : PyDate) (slot : String)
    (kvs sb : List (String × JSON))
    (hd : List.lookup d.isoformat (load_devotions_for_year fs d.year) = some (.obj kvs))
    (hsb : slot_block_of kvs slot = .obj sb) :
    (load_devotion_for fs d slot).map Record.body =
      some (pyOr (getJ sb "silent_soul_meaning") (pyOr (getJ sb "closing")
        (pyOr (getJ sb "verse_text") (pyOr (getJ sb "body") (.str ""))))) := by
  simp only [load_devotion_for, resolveFrom, hd, hsb]
  rfl

/-- A slotted day-block whose morning slot has both `body` and `closing`. -/
def kvsC5 : List (String × JSON) :=
  [("morning", .obj [("body", .str "B"), ("closing", .str "C")])]

/-- Filesystem with the body/closing day-block on 2026-01-01. -/
def fsC5 : FS := fun y =>
  if y = 2026 then .parsed (.obj [("2026-01-01", .obj kvsC5)]) else .absent

/-- Witness for `resolve_body_first_truthy`. -/
theorem resolve_body_first_truthy_witness :
    List.lookup (PyDate.mk 2026 1 1).isoformat
        (load_devotions_for_year fsC5 (PyDate.mk 2026 1 1).year) = some (.obj kvsC5) ∧
    slot_block_of kvsC5 "morning" = .obj [("body", .str "B"), ("closing", .str "C")] ∧
    (load_devotion_for fsC5 (PyDate.mk 2026 1 1) "morning").map Record.body =
      some (pyOr (getJ [("body", .str "B"), ("closing", .str "C")] "silent_soul_meaning")
        (pyOr (getJ [("body", .str "B"), ("closing", .str "C")] "closing")
          (pyOr (getJ [("body", .str "B"), ("closing", .str "C")] "verse_text")
            (pyOr (getJ [("body", .str "B"), ("closing", .str "C")] "body") (.str ""))))) :=
  ⟨rfl, rfl,
   resolve_body_first_truthy fsC5 (PyDate.mk 2026 1 1) "morning" kvsC5
     [("body", .str "B"), ("closing", .str "C")] rfl rfl⟩

/-- Claim C5 counterexample: with `body = "B"` and `closing = "C"` in the
slot block, the claimed newline-join would give `"B\nC"`, but the code
returns `"C"` (the first truthy of the chain skips the explicit body). -/
theorem resolve_body_not_joined :
    (load_devotion_for fsC5 (PyDate.mk 2026 1 1) "morning").map Record.body ≠
        some (.str ("B" ++ "\n" ++ "C")) ∧
    (load_devotion_for fsC5 (PyDate.mk 2026 1 1) "morning").map Record.body =
      some (.str "C") := by
  refine ⟨?_, rfl⟩
  intro h
  rw [show (load_devotion_for fsC5 (PyDate.mk 2026 1 1) "morning").map Record.body =
      some (.str "C") from rfl] at h
  simp at h

/-- The newline character. -/
def nlChar : Char := Char.ofNat 10

/-- A string without newline characters. -/
def NoNL (s : String) : Prop := ∀ c ∈ s.data, c ≠ nlChar

instance NoNL.dec (s : String) : Decidable (NoNL s) :=
  inferInstanceAs (Decidable (∀ c ∈ s.data, c ≠ nlChar))

/-- ASCII digit characters. -/
theorem digitChar_isDigit (k : Nat) (hk : k < 10) : (Char.ofNat (48 + k)).isDigit = true := by
  interval_cases k <;> decide

/-- Every character produced by `natCharsAux` is a digit. -/
theorem natCharsAux_isDigit :
    ∀ fuel n, ∀ c ∈ natCharsAux fuel n, c.isDigit = true := by
  intro fuel
  induction fuel with
  | zero => intro n c hc; simp [natCharsAux] at hc
  | succ f ih =>
    intro n c hc
    by_cases h : n < 10
    · simp [natCharsAux, h] at hc
      subst hc
      exact digitChar_isDigit n h
    · simp [natCharsAux, h] at hc
      rcases hc with hc | hc
      · exact ih _ c hc
      · subst hc
        exact digitChar_isDigit _ (Nat.mod_lt _ (by omega))

/-- A digit character is not a newline. -/
theorem isDigit_ne_nl (c : Char) (h : c.isDigit = true) : c ≠ nlChar := by
  intro he
  subst he
  exact absurd h (by decide)

/-- `natStr` contains no newline. -/
theorem natStr_NoNL (n : Nat) : NoNL (natStr n) := by
  intro c hc
  exact isDigit_ne_nl c (natCharsAux_isDigit (n + 1) n c hc)

/-- Concatenation preserves newline-freedom. -/
theorem NoNL_append (a b : String) (ha : NoNL a) (hb : NoNL b) : NoNL (a ++ b) := by
  intro c hc
  rcases List.mem_append.mp hc with h | h
  · exact ha c h
  · exact hb c h

/-- `pad2` contains no newline. -/
theorem pad2_NoNL (n : Nat) : NoNL (pad2 n) := by
  unfold pad2
  by_cases h : n < 10
  · simp only [h, if_true]
    exact NoNL_append _ _ (by decide) (natStr_NoNL n)
  · simp only [h, if_false]
    exact natStr_NoNL n

/-- Weekday names contain no newline. -/
theorem weekdayName_NoNL (k : Nat) : NoNL (weekdayName k) := by
  rcases k with _|_|_|_|_|_|_|k
  · decide
  · decide
  · decide
  · decide
  · decide
  · decide
  · decide
  · intro c hc
    simp [show weekdayName (k + 7) = "" from rfl] at hc

/-- Month names contain no newline. -/
theorem monthName_NoNL (k : Nat) : NoNL (monthName k) := by
  rcases k with _|_|_|_|_|_|_|_|_|_|_|_|_|k
  · decide
  · decide
  · decide
  · decide
  · decide
  · decide
  · decide
  · decide
  · decide
  · decide
  · decide
  · decide
  · decide
  · intro c hc
    simp [show monthName (k + 13) = "" from rfl] at hc

/-- The long date line contains no newline. -/
theorem formatLong_NoNL (dt : PyDate) : NoNL (formatLong dt) := by
  unfold formatLong
  exact NoNL_append _ _
    (NoNL_append _ _
      (NoNL_append _ _
        (NoNL_append _ _
          (NoNL_append _ _
            (NoNL_append _ _ (weekdayName_NoNL _) (by decide))
            (monthName_NoNL _))
          (by decide))
        (pad2_NoNL _))
      (by decide))
    (natStr_NoNL _)

/-- The header line contains no newline. -/
theorem headerLine_NoNL (mode : String) (dt : PyDate) : NoNL (headerLine mode dt) := by
  unfold headerLine
  refine NoNL_append _ _ (NoNL_append _ _ ?_ (by decide)) (formatLong_NoNL dt)
  by_cases hm : mode = "morning"
  · simp only [hm, if_true]
    decide
  · simp only [hm, if_false]
    decide

/-- The header line starts with a non-whitespace character (an emoji). -/
theorem headerLine_head (mode : String) (dt : PyDate) :
    ∃ c t, (headerLine mode dt).data = c :: t ∧ isPySpace c = false := by
  unfold headerLine
  by_cases hm : mode = "morning"
  · simp only [hm, if_true]
    exact ⟨'🌅', _, rfl, by decide⟩
  · simp only [hm, if_false]
    exact ⟨'🌙', _, rfl, by decide⟩

/-- A string whose character list is a cons is not empty. -/
theorem ne_empty_of_data_cons {s : String} {c : Char} {t : List Char}
    (h : s.data = c :: t) : s ≠ "" := by
  intro he
  subst he
  simp at h

/-- `joinNL` on a cons with a non-empty tail. -/
theorem joinNL_cons (h : String) (l : List String) (hl : l ≠ []) :
    (joinNL (h :: l)).data = h.data ++ nlChar :: (joinNL l).data := by
  cases l with
  | nil => exact absurd rfl hl
  | cons y ys => simp [joinNL, nlChar]

/-- A character of a member line is a character of the joined string. -/
theorem mem_joinNL (l : List String) (s : String) (hs : s ∈ l) (c : Char)
    (hc : c ∈ s.data) : c ∈ (joinNL l).data := by
  induction l with
  | nil => simp at hs
  | cons x xs ih =>
    cases xs with
    | nil =>
      rcases List.mem_cons.mp hs with rfl | h
      · exact hc
      · simp at h
    | cons y ys =>
      rcases List.mem_cons.mp hs with rfl | h
      · show c ∈ (s ++ "\n" ++ joinNL (y :: ys)).data
        exact List.mem_append.mpr (.inl (List.mem_append.mpr (.inl hc)))
      · show c ∈ (x ++ "\n" ++ joinNL (y :: ys)).data
        exact List.mem_append.mpr (.inr (ih h))

/-- `dropWhile` over an append whose first part has a failing element. -/
theorem dropWhile_append_ex {α} (p : α → Bool) :
    ∀ (a b : List α), (∃ c ∈ a, p c = false) →
      (a ++ b).dropWhile p = a.dropWhile p ++ b := by
  intro a
  induction a with
  | nil =>
    intro b h
    rcases h with ⟨c, hc, _⟩
    simp at hc
  | cons x xs ih =>
    intro b h
    by_cases hx : p x
    · rcases h with ⟨c, hc, hpc⟩
      rcases List.mem_cons.mp hc with rfl | hc₂
      · rw [hx] at hpc
        simp at hpc
      · simp only [List.cons_append, List.dropWhile_cons, hx, if_true]
        exact ih b ⟨c, hc₂, hpc⟩
    · have hx₂ : p x = false := by
        cases hpx : p x
        · rfl
        · exact absurd hpx hx
      simp [List.cons_append, List.dropWhile_cons, hx₂]

/-- `takeWhile` over an append stopping exactly at the join element. -/
theorem takeWhile_append_stop {α} (p : α → Bool) :
    ∀ (a : List α) (x : α) (b : List α), (∀ c ∈ a, p c = true) → p x = false →
      (a ++ x :: b).takeWhile p = a := by
  intro a
  induction a with
  | nil =>
    intro x b _ hx
    simp [List.takeWhile_cons, hx]
  | cons y ys ih =>
    intro x b ha hx
    have hy : p y = true := ha y (by simp)
    simp only [List.cons_append, List.takeWhile_cons, hy, if_true]
    rw [ih x b (fun c hc => ha c (by simp [hc])) hx]

/-- Right trim of an append whose second part has a non-space character. -/
theorem rtrim_append_ex (a b : List Char) (h : ∃ c ∈ b, isPySpace c = false) :
    rtrimChars (a ++ b) = a ++ rtrimChars b := by
  unfold rtrimChars
  rw [List.reverse_append]
  rw [dropWhile_append_ex isPySpace b.reverse a.reverse
    (by rcases h with ⟨c, hc, hpc⟩; exact ⟨c, List.mem_reverse.mpr hc, hpc⟩)]
  rw [List.reverse_append, List.reverse_reverse]

/-- Left trim keeps a list starting with a non-space character. -/
theorem ltrim_cons_of_nonspace (c : Char) (t : List Char) (hc : isPySpace c = false) :
    ltrimChars (c :: t) = c :: t := by
  simp [ltrimChars, List.dropWhile_cons, hc]

/-- Shape of the built message: the stripped join always starts with the
intact header line followed by a newline (the prayer line guarantees a
non-whitespace character after the header in every branch). -/
theorem bmfe_data_shape (site mode : String) (e : List (String × JSON)) (dt : PyDate) :
    ∃ t, (build_message_from_entry site mode e dt).data =
      (headerLine mode dt).data ++ nlChar :: t := by
  have hpl : ("\n🙏 " ++ bmfePrayerStr mode e).data =
      nlChar :: '🙏' :: ' ' :: (bmfePrayerStr mode e).data := rfl
  have haddIf : addIf ("\n🙏 " ++ bmfePrayerStr mode e) =
      ["\n🙏 " ++ bmfePrayerStr mode e] := by
    unfold addIf
    rw [if_neg (ne_empty_of_data_cons hpl)]
  have hmem : ("\n🙏 " ++ bmfePrayerStr mode e) ∈
      (bmfePre e ++ bmfeStuff e ++ addIf ("\n🙏 " ++ bmfePrayerStr mode e)
        ++ promoBit site) := by
    rw [haddIf]
    simp [List.mem_append]
  set rest := bmfePre e ++ bmfeStuff e ++ addIf ("\n🙏 " ++ bmfePrayerStr mode e)
    ++ promoBit site with hrest
  have hrne : rest ≠ [] := List.ne_nil_of_mem hmem
  have hemoji : '🙏' ∈ (joinNL rest).data := by
    refine mem_joinNL rest _ hmem '🙏' ?_
    rw [hpl]
    simp
  have hJ : ∃ c ∈ (joinNL rest).data, isPySpace c = false :=
    ⟨'🙏', hemoji, by decide⟩
  obtain ⟨hc, ht, hhd, hhs⟩ := headerLine_head mode dt
  have hjoin : (joinNL (bmfeLines site mode e dt)).data =
      (headerLine mode dt).data ++ nlChar :: (joinNL rest).data := by
    unfold bmfeLines
    rw [← hrest]
    exact joinNL_cons _ rest hrne
  refine ⟨rtrimChars (joinNL rest).data, ?_⟩
  show (pyStrip (joinNL (bmfeLines site mode e dt))).data = _
  unfold pyStrip
  rw [hjoin]
  have hltrim : ltrimChars ((headerLine mode dt).data ++ nlChar :: (joinNL rest).data) =
      (headerLine mode dt).data ++ nlChar :: (joinNL rest).data := by
    rw [hhd, List.cons_append]
    exact ltrim_cons_of_nonspace hc _ hhs
  rw [hltrim]
  rw [rtrim_append_ex _ _ (by
    rcases hJ with ⟨c, hcm, hcs⟩
    exact ⟨c, by simp [hcm], hcs⟩)]
  rw [show (nlChar :: (joinNL rest).data) = [nlChar] ++ (joinNL rest).data from rfl]
  rw [rtrim_append_ex [nlChar] (joinNL rest).data hJ]
  rfl

/-- Claim C9 (corrected): the renderer never returns the empty string — for
every dict record (including the empty one), every mode and every date it
emits at least the header line, a prayer line and, when configured, the
footer; it cannot fail on any dict record, being a total function of the
embedded inputs. -/
theorem render_never_empty (site mode : String) (e : List (String × JSON))
    (dt : PyDate) : build_message_from_entry site mode e dt ≠ "" := by
  obtain ⟨t, ht⟩ := bmfe_data_shape site mode e dt
  intro he
  rw [he] at ht
  have hlen := congrArg List.length ht
  simp at hlen
  omega

/-- Claim C9 counterexample: on the empty record the renderer returns a
non-empty message (header, default prayer, footer), not the empty string. -/
theorem render_empty_record_nonempty_message :
    build_message_from_entry siteUrlDefault "morning" [] (PyDate.mk 2026 1 1) ≠ "" := by
  decide

/-- Claim C10 (confirmed): for every dict entry (including the empty one)
and every mode, the rendered message is non-empty and its first line is the
mode header joined with the long-formatted date: `🌅 Sunrise Devotion — <date>`
for `morning` and `🌙 Sunset Devotion — <date>` otherwise. -/
theorem render_first_line_is_header (site mode : String) (e : List (String × JSON))
    (dt : PyDate) :
    build_message_from_entry site mode e dt ≠ "" ∧
    firstLine (build_message_from_entry site mode e dt) =
      (if mode = "morning" then "🌅 Sunrise Devotion" else "🌙 Sunset Devotion")
        ++ " — " ++ formatLong dt := by
  obtain ⟨t, ht⟩ := bmfe_data_shape site mode e dt
  constructor
  · intro he
    rw [he] at ht
    have hlen := congrArg List.length ht
    simp at hlen
    omega
  · show firstLine _ = headerLine mode dt
    unfold firstLine
    rw [ht]
    rw [takeWhile_append_stop _ (headerLine mode dt).data nlChar t
      (fun c hc => by simpa [bne_iff_ne] using headerLine_NoNL mode dt c hc)
      (by decide)]

/-- `List.lookup` over a cons whose key matches. -/
theorem lookup_cons_self (k : String) (v : JSON) (tl : List (String × JSON)) :
    List.lookup k ((k, v) :: tl) = some v := by
  simp [List.lookup]

/-- `List.lookup` over a cons whose key differs. -/
theorem lookup_cons_ne (k k₀ : String) (v₀ : JSON) (tl : List (String × JSON))
    (h : k ≠ k₀) : List.lookup k ((k₀, v₀) :: tl) = List.lookup k tl := by
  simp [List.lookup, show (k == k₀) = false from beq_eq_false_iff_ne.mpr h]

/-- Looking up the freshly inserted key finds the inserted value. -/
theorem lookup_dictInsert_self (acc : List (String × JSON)) (k : String) (v : JSON) :
    List.lookup k (dictInsert acc k v) = some v := by
  induction acc with
  | nil => simp [dictInsert, List.lookup]
  | cons hd tl ih =>
    obtain ⟨k₀, v₀⟩ := hd
    by_cases h : k₀ = k
    · simp [dictInsert, h, List.lookup]
    · simp only [dictInsert, h, if_false]
      rw [lookup_cons_ne k k₀ v₀ _ (Ne.symm h)]
      exact ih

/-- Insertion never removes a key that resolves. -/
theorem lookup_dictInsert_isSome (acc : List (String × JSON)) (k k₂ : String) (v : JSON)
    (h : (List.lookup k acc).isSome = true) :
    (List.lookup k (dictInsert acc k₂ v)).isSome = true := by
  by_cases he : k = k₂
  · subst he
    rw [lookup_dictInsert_self]
    rfl
  · induction acc with
    | nil => simp [List.lookup] at h
    | cons hd tl ih =>
      obtain ⟨k₀, v₀⟩ := hd
      by_cases h₀ : k₀ = k₂
      · subst h₀
        rw [show dictInsert ((k₀, v₀) :: tl) k₀ v = (k₀, v) :: tl from by
          simp [dictInsert]]
        rw [lookup_cons_ne k k₀ v₀ tl he] at h
        rw [lookup_cons_ne k k₀ v tl he]
        exact h
      · simp only [dictInsert, h₀, if_false]
        by_cases hk : k = k₀
        · subst hk
          rw [lookup_cons_self] at h ⊢
          exact h
        · rw [lookup_cons_ne k k₀ v₀ tl hk] at h
          rw [lookup_cons_ne k k₀ v₀ _ hk]
          exact ih h

/-- Folding further entries preserves every key already present. -/
theorem foldl_store_preserves (xs : List JSON) :
    ∀ acc k, (List.lookup k acc).isSome = true →
      (List.lookup k (xs.foldl storeEntryStep acc)).isSome = true := by
  induction xs with
  | nil => intro acc k h; exact h
  | cons e rest ih =>
    intro acc k h
    apply ih
    unfold storeEntryStep
    cases e with
    | obj kvs =>
      by_cases ht : (getD kvs "date" (.str "")).truthy
      · simp only [ht, if_true]
        exact lookup_dictInsert_isSome acc k _ _ h
      · simp only [ht, if_false]
        exact h
    | null => exact h
    | bool b => exact h
    | num n => exact h
    | str s => exact h
    | arr ys => exact h

/-- The key under which the list loader stores a dated entry: the
normalised date when normalisation succeeds, else the raw date string. -/
def entryKeyOf (kvs : List (String × JSON)) : String :=
  (normalize_date_str (pyStr (getD kvs "date" (.str "")))).getD
    (pyStr (getD kvs "date" (.str "")))

/-- Any dict entry with a truthy date field lands in the folded store under
its entry key. -/
theorem foldl_store_mem_key (xs : List JSON) :
    ∀ acc (kvs : List (String × JSON)), JSON.obj kvs ∈ xs →
      (getD kvs "date" (.str "")).truthy = true →
      (List.lookup (entryKeyOf kvs) (xs.foldl storeEntryStep acc)).isSome = true := by
  induction xs with
  | nil => intro acc kvs h _; simp at h
  | cons e rest ih =>
    intro acc kvs hmem ht
    rcases List.mem_cons.mp hmem with he | hmem₂
    · rw [show e = JSON.obj kvs from he.symm]
      show (List.lookup _ (rest.foldl storeEntryStep
        (storeEntryStep acc (.obj kvs)))).isSome = true
      apply foldl_store_preserves
      unfold storeEntryStep
      simp only [ht, if_true]
      rw [show ((normalize_date_str (pyStr (getD kvs "date" (.str "")))).getD
          (pyStr (getD kvs "date" (.str "")))) = entryKeyOf kvs from rfl]
      rw [lookup_dictInsert_self]
      rfl
    · exact ih (storeEntryStep acc e) kvs hmem₂ ht

/-- Claim C7 (corrected): in list form, entries that are not dicts or whose
date field is missing/falsy are dropped; but a dict entry whose truthy date
cannot be normalised is not dropped — it is stored under its raw date
string (the code falls back with `normalize_date_str(...) or str(raw_date)`).
Every dict entry with a truthy date appears under its entry key. -/
theorem load_year_list_keeps_dated_entries (fs : FS) (year : Nat) (xs : List JSON)
    (kvs : List (String × JSON))
    (hfs : fs year = .parsed (.arr xs))
    (hmem : JSON.obj kvs ∈ xs)
    (ht : (getD kvs "date" (.str "")).truthy = true) :
    (List.lookup (entryKeyOf kvs) (load_devotions_for_year fs year)).isSome = true := by
  have hload : load_devotions_for_year fs year = xs.foldl storeEntryStep [] := by
    unfold load_devotions_for_year
    rw [hfs]
    rfl
  rw [hload]
  exact foldl_store_mem_key xs [] kvs hmem ht

/-- A list entry whose date string no format can parse. -/
def kvsG : List (String × JSON) := [("date", .str "garbage"), ("theme", .str "T")]

/-- The unparsable-date entry as a JSON value. -/
def entG : JSON := .obj kvsG

/-- Filesystem whose 2026 file is a list holding only the unparsable entry. -/
def fsG : FS := fun y => if y = 2026 then .parsed (.arr [entG]) else .absent

/-- Claim C7 counterexample: the entry with the unnormalisable date
`"garbage"` is not dropped — the loaded store keys it by the raw string. -/
theorem load_year_keeps_unparsable_date :
    load_devotions_for_year fsG 2026 = [("garbage", entG)] := rfl

/-- Witness for `load_year_list_keeps_dated_entries`. -/
theorem load_year_list_keeps_dated_entries_witness :
    fsG 2026 = .parsed (.arr [entG]) ∧ JSON.obj kvsG ∈ [entG] ∧
    (getD kvsG "date" (.str "")).truthy = true ∧
    (List.lookup (entryKeyOf kvsG) (load_devotions_for_year fsG 2026)).isSome = true :=
  ⟨rfl, by simp [entG], rfl,
   load_year_list_keeps_dated_entries fsG 2026 [entG] kvsG rfl (by simp [entG]) rfl⟩
